import Mathlib

/-!
Verification development for the image-metadata extractor
(`src/image_metadata_extractor.py`).

The Python module is shallowly embedded below.  Modelling decisions:

* An exifread `IfdTag` is modelled as its list of element values plus its
  printable string (`str(tag)`).  Element values (`PyVal`) are either a
  `Fraction`/`Ratio` instance (numerator/denominator pair, stored raw when the
  denominator is zero just as exifread's `Ratio.__new__` does, and otherwise
  stored reduced by `Fraction.__new__` — reduction never matters for the
  properties proved here), a plain integer, or a one-character string (ASCII
  tag values are indexed character by character in the source).
* The tag dictionary returned by `exifread.process_file` is an association
  list; `dict.get` is `tagsGet`.
* Python `float` arithmetic in the GPS converter is modelled by exact
  unnormalised fractions (`PyFloat`).  Every value the source feeds through
  this path is a ratio of machine integers combined by `+`, `/60.0`,
  `/3600.0` and negation, and the concrete values exercised in the account
  below are exactly representable as doubles, so exact fraction arithmetic
  agrees with the source's double arithmetic there.  `f"{x:.5f}"` is
  `formatFixed x 5` (round half to even), `f"{x}"` on a float is `floatRepr`
  (shortest terminating decimal, matching `repr` of a decimal-exact double).
* Runtime exceptions (`IndexError` on a too-short value list,
  `ZeroDivisionError` on a zero float divisor, `AttributeError` on `.num` of
  a non-ratio value) are modelled with `Except PyErr`.
* File-system facts consumed by the program (`os.path.isfile`, readability
  of the file, the container properties PIL reports, the parsed tag
  dictionary, the path string) are packaged in `FileInput`; `Image.open` on
  a regular but unreadable/undecodable file fails with the container
  decoder's error (the spec's `UnsupportedFormatError`), which is in any
  case distinct from `FileNotFoundError`.
-/

/-- Runtime exceptions that the embedded Python expressions can raise. -/
inductive PyErr where
  | indexError
  | zeroDivision
  | attributeError
deriving DecidableEq, Repr

/-- One element of an `IfdTag.values` list. -/
inductive PyVal where
  | frac (num den : Int)
  | int (n : Int)
  | strv (s : String)
deriving DecidableEq, Repr

/-- Python `isinstance(v, Fraction)`: exifread `Ratio` subclasses `Fraction`. -/
def PyVal.isFraction : PyVal → Bool
  | .frac _ _ => true
  | _ => false

/-- Python `str()` of a tag-value element (`Fraction.__str__` prints `n/d`,
or just `n` when the stored denominator is 1). -/
def PyVal.pyStr : PyVal → String
  | .frac n d => if d == 1 then toString n else toString n ++ "/" ++ toString d
  | .int n => toString n
  | .strv s => s

/-- Python `repr()` of a tag-value element, as used by `f"{tag.values}"`. -/
def PyVal.pyRepr : PyVal → String
  | .frac n d => if d == 1 then toString n else toString n ++ "/" ++ toString d
  | .int n => toString n
  | .strv s => "\x27" ++ s ++ "\x27"

/-- Python `v == k` for an integer dictionary key `k`
(`Fraction(n, 1) == n` is true, strings never equal integers). -/
def PyVal.eqInt : PyVal → Int → Bool
  | .frac n d, k => d == 1 && n == k
  | .int n, k => n == k
  | .strv _, _ => false

/-- Python `v == r` for a one-character string `r` (hemisphere references). -/
def PyVal.eqStr : PyVal → String → Bool
  | .strv s, r => s == r
  | _, _ => false

/-- An exifread `IfdTag`: its `values` list and its printable form
(`str(tag)`). -/
structure IfdTag where
  values : List PyVal
  printable : String
deriving DecidableEq, Repr

/-- The dictionary returned by `exifread.process_file`. -/
abbrev TagDir := List (String × IfdTag)

/-- Python `tags.get(name)` (and `tags.get(name, None)`). -/
def tagsGet (tags : TagDir) (name : String) : Option IfdTag :=
  (tags.find? (fun p => p.1 == name)).map (fun p => p.2)

/-- Python `t.values[i]`: raises `IndexError` when the list is too short. -/
def getVal (t : IfdTag) (i : Nat) : Except PyErr PyVal :=
  match t.values[i]? with
  | some v => Except.ok v
  | none => Except.error PyErr.indexError

/-- An exact model of the Python floats flowing through the GPS converter:
an unnormalised fraction with (in all reachable states) a positive
denominator. -/
structure PyFloat where
  num : Int
  den : Int
deriving DecidableEq, Repr

/-- Python `float(a) / float(b)` for integers `a`, `b` with `b ≠ 0`. -/
def floatDiv (a b : Int) : PyFloat :=
  if b < 0 then ⟨-a, -b⟩ else ⟨a, b⟩

/-- Python `x + y` on floats, modelled exactly. -/
def PyFloat.add (x y : PyFloat) : PyFloat :=
  ⟨x.num * y.den + y.num * x.den, x.den * y.den⟩

/-- Python `x / n` for a positive integer literal `n` (`60.0`, `3600.0`). -/
def PyFloat.divN (x : PyFloat) (n : Nat) : PyFloat :=
  ⟨x.num, x.den * (n : Int)⟩

/-- Python unary negation (`value *= -1`). -/
def PyFloat.neg (x : PyFloat) : PyFloat :=
  ⟨-x.num, x.den⟩

/-- The rational number a `PyFloat` denotes. -/
def PyFloat.toRat (x : PyFloat) : ℚ :=
  (x.num : ℚ) / (x.den : ℚ)

/-- Round `a / b` (for `b > 0`) to the nearest integer, ties to even:
the rounding Python's fixed-point float formatting performs. -/
def roundHalfEvenFrac (a b : Int) : Int :=
  let q := Int.fdiv a b
  let r := a - q * b
  if 2 * r < b then q
  else if b < 2 * r then q + 1
  else if q % 2 = 0 then q else q + 1

/-- Left-pad a digit string with zeros to width `k`. -/
def padZeros (s : String) (k : Nat) : String :=
  String.mk (List.replicate (k - s.length) '0') ++ s

/-- Python `f"{x:.prec f}"` for `prec ≥ 1` (fixed-point, round half to even,
a sign also on negative zero). -/
def formatFixed (x : PyFloat) (prec : Nat) : String :=
  let n := roundHalfEvenFrac (x.num * ((10 ^ prec : Nat) : Int)) x.den
  let neg := n < 0 || (n == 0 && x.num < 0)
  let a := n.natAbs
  (if neg then "-" else "")
    ++ toString (a / 10 ^ prec) ++ "."
    ++ padZeros (toString (a % 10 ^ prec)) prec

/-- Python `f"{x}"` on a float: `repr`, which for a double that is exactly a
terminating decimal prints that shortest decimal (always with at least one
fractional digit).  Non-terminating values (unreachable in the properties
proved here) fall back to a 17-digit rendering. -/
def floatRepr (x : PyFloat) : String :=
  if x.num % x.den == 0 then toString (x.num / x.den) ++ ".0"
  else
    match (List.range 17).find?
        (fun k => x.num * ((10 ^ (k + 1) : Nat) : Int) % x.den == 0) with
    | some k => formatFixed x (k + 1)
    | none => formatFixed x 17

/-- Embedding of `_fraction_to_readable` (source lines 89–94): absent tag
returns the caller's default; a `Fraction` first element is printed with
`str`; otherwise `values[0]` and `values[1]` are printed as a pair. -/
def _fraction_to_readable (fraction : Option IfdTag) (defaultValue : String) :
    Except PyErr String :=
  match fraction with
  | none => Except.ok defaultValue
  | some t => do
    let v0 ← getVal t 0
    if v0.isFraction then
      pure v0.pyStr
    else
      let v1 ← getVal t 1
      pure (v0.pyStr ++ "/" ++ v1.pyStr)

/-- Python `table.get(code, fallback)` for the enum lookup tables, keyed by
the tag's first element. -/
def lookupTable (tbl : List (Int × String)) (v : PyVal) : Option String :=
  (tbl.find? (fun p => v.eqInt p.1)).map (fun p => p.2)

/-- Common body of the mapped-enum resolvers: absent tag yields `"N/A"`,
otherwise the first element is looked up in the table with the given
fallback for unmapped codes. -/
def resolveTable (tbl : List (Int × String)) (fallback : String)
    (tag : Option IfdTag) : Except PyErr String :=
  match tag with
  | some t => do
    let v ← getVal t 0
    pure ((lookupTable tbl v).getD fallback)
  | none => Except.ok "N/A"

/-- Embedding of `_get_exposure_mode` (source lines 96–102). -/
def _get_exposure_mode (tags : TagDir) : Except PyErr String :=
  resolveTable [(0, "Auto"), (1, "Manual"), (2, "Auto bracket")] "Unknown"
    (tagsGet tags "EXIF ExposureMode")

/-- Embedding of `_get_white_balance` (source lines 104–110). -/
def _get_white_balance (tags : TagDir) : Except PyErr String :=
  resolveTable [(0, "Auto"), (1, "Manual")] "Unknown"
    (tagsGet tags "EXIF WhiteBalance")

/-- Embedding of `_get_flash_info` (source lines 112–123): an if/elif chain
over the first element. -/
def _get_flash_info (tags : TagDir) : Except PyErr String :=
  match tagsGet tags "EXIF Flash" with
  | some t => do
    let v ← getVal t 0
    pure (if v.eqInt 0 then "Flash did not fire"
          else if v.eqInt 1 then "Flash fired"
          else "Unknown")
  | none => Except.ok "N/A"

/-- Embedding of `_get_metering_mode` (source lines 186–200). -/
def _get_metering_mode (tags : TagDir) : Except PyErr String :=
  resolveTable
    [(0, "Unknown"), (1, "Average"), (2, "Center-weighted average"),
     (3, "Spot"), (4, "Multi-spot"), (5, "Pattern"), (6, "Partial")]
    "Unknown" (tagsGet tags "EXIF MeteringMode")

/-- Embedding of `_get_exposure_program` (source lines 202–218). -/
def _get_exposure_program (tags : TagDir) : Except PyErr String :=
  resolveTable
    [(0, "Not defined"), (1, "Manual"), (2, "Normal program"),
     (3, "Aperture priority"), (4, "Shutter priority"),
     (5, "Creative program"), (6, "Action program"),
     (7, "Portrait mode"), (8, "Landscape mode")]
    "Unknown" (tagsGet tags "EXIF ExposureProgram")

/-- Embedding of `_get_scene_capture_type` (source lines 220–231). -/
def _get_scene_capture_type (tags : TagDir) : Except PyErr String :=
  resolveTable
    [(0, "Standard"), (1, "Landscape"), (2, "Portrait"), (3, "Night scene")]
    "Unknown" (tagsGet tags "EXIF SceneCaptureType")

/-- Embedding of `_get_color_space` (source lines 177–184): note that the
source's fallback for a present-but-unmapped code is `'N/A'`, and the
`isinstance(..., IfdTag)` guard is equivalent to presence of the tag. -/
def _get_color_space (tags : TagDir) : Except PyErr String :=
  resolveTable [(1, "sRGB"), (2, "Adobe RGB")] "N/A"
    (tagsGet tags "EXIF ColorSpace")

/-- Embedding of `_get_resolution_unit` (source lines 239–249). -/
def _get_resolution_unit (tags : TagDir) : Except PyErr String :=
  resolveTable
    [(1, "No absolute unit of measurement"), (2, "Inches"), (3, "Centimeters")]
    "Unknown" (tagsGet tags "Image ResolutionUnit")

/-- Embedding of `_get_ycbcr_positioning` (source lines 251–260). -/
def _get_ycbcr_positioning (tags : TagDir) : Except PyErr String :=
  resolveTable [(1, "Centered"), (2, "Co-sited")] "Unknown"
    (tagsGet tags "Image YCbCrPositioning")

/-- Embedding of `_get_focus_mode` (source lines 262–268). -/
def _get_focus_mode (tags : TagDir) : Except PyErr String :=
  resolveTable [(0, "Manual"), (1, "Auto")] "Unknown"
    (tagsGet tags "EXIF FocusMode")

/-- Embedding of `_get_shooting_mode` (source lines 270–276). -/
def _get_shooting_mode (tags : TagDir) : Except PyErr String :=
  resolveTable [(0, "Normal"), (1, "Portrait"), (2, "Landscape")] "Unknown"
    (tagsGet tags "EXIF ShootingMode")

/-- Embedding of `_get_orientation` (source lines 159–175): note that the
source's fallback for a present-but-unmapped code is `'N/A'`, and the
`isinstance(..., IfdTag)` guard is equivalent to presence of the tag. -/
def _get_orientation (tags : TagDir) : Except PyErr String :=
  resolveTable
    [(1, "Normal"), (2, "Mirrored horizontally"), (3, "Rotated 180 degrees"),
     (4, "Mirrored vertically"),
     (5, "Mirrored horizontally and rotated 270 degrees CW"),
     (6, "Rotated 90 degrees CW"),
     (7, "Mirrored horizontally and rotated 90 degrees CW"),
     (8, "Rotated 270 degrees CW")]
    "N/A" (tagsGet tags "Image Orientation")

/-- Embedding of `_get_noise_reduction` (source lines 278–283): a boolean
resolver with no table. -/
def _get_noise_reduction (tags : TagDir) : Except PyErr String :=
  match tagsGet tags "EXIF NoiseReduction" with
  | some t => do
    let v ← getVal t 0
    pure (if v.eqInt 1 then "On" else "Off")
  | none => Except.ok "N/A"

/-- Embedding of `_get_subject_area` (source lines 285–290):
`f"{tag.values}"` prints the Python list of element reprs. -/
def _get_subject_area (tags : TagDir) : String :=
  match tagsGet tags "EXIF SubjectArea" with
  | some t => "[" ++ String.intercalate ", " (t.values.map PyVal.pyRepr) ++ "]"
  | none => "N/A"

/-- Embedding of `_get_resolution` (source lines 233–237). -/
def _get_resolution (tags : TagDir) : Except PyErr String := do
  let x ← _fraction_to_readable (tagsGet tags "Image XResolution") "N/A"
  let y ← _fraction_to_readable (tagsGet tags "Image YResolution") "N/A"
  let u ← _get_resolution_unit tags
  pure (x ++ " x " ++ y ++ " " ++ u)

/-- Python `value.num / value.den` as `float(...) / float(...)` (source
lines 127–129 and 155): `ZeroDivisionError` on a zero denominator,
`AttributeError` on a value without `num`/`den` members. -/
def ratioDiv : PyVal → Except PyErr PyFloat
  | .frac n d => if d = 0 then Except.error PyErr.zeroDivision
                 else Except.ok (floatDiv n d)
  | _ => Except.error PyErr.attributeError

/-- Embedding of `_convert_to_degrees` (source lines 126–130). -/
def _convert_to_degrees (value : IfdTag) : Except PyErr PyFloat := do
  let d ← ratioDiv (← getVal value 0)
  let m ← ratioDiv (← getVal value 1)
  let s ← ratioDiv (← getVal value 2)
  pure ((d.add (m.divN 60)).add (s.divN 3600))

/-- The signed latitude/longitude pair computed on source lines 140–147:
both triplets are converted, then the hemisphere references are read and
`'S'`/`'W'` negate the respective coordinate. -/
def _gps_signed (la lar lo lonr : IfdTag) : Except PyErr (PyFloat × PyFloat) := do
  let latitude ← _convert_to_degrees la
  let longitude ← _convert_to_degrees lo
  let lv ← getVal lar 0
  let gv ← getVal lonr 0
  pure (if lv.eqStr "S" then latitude.neg else latitude,
        if gv.eqStr "W" then longitude.neg else longitude)

/-- The altitude display string of source line 155. -/
def _format_altitude (a : IfdTag) : Except PyErr String := do
  let av ← getVal a 0
  let q ← ratioDiv av
  pure (formatFixed q 2 ++ " meters")

/-- A section of the returned report: the GPS section may be the bare
string `'N/A'`, every other section is a field mapping. -/
inductive SectionVal where
  | dict (fields : List (String × String))
  | str (s : String)
deriving DecidableEq, Repr

/-- The latitude/longitude/map-link fields of source lines 139–152, or the
empty list when any of the four required tags is missing. -/
def _gps_base (tags : TagDir) : Except PyErr (List (String × String)) :=
  match tagsGet tags "GPS GPSLatitude", tagsGet tags "GPS GPSLatitudeRef",
        tagsGet tags "GPS GPSLongitude", tagsGet tags "GPS GPSLongitudeRef" with
  | some la, some lar, some lo, some lonr => do
    let c ← _gps_signed la lar lo lonr
    let lv ← getVal lar 0
    let gv ← getVal lonr 0
    pure [("Latitude",
           formatFixed c.1 5 ++ "° " ++ (if lv.eqStr "S" then "S" else "N")),
          ("Longitude",
           formatFixed c.2 5 ++ "° " ++ (if gv.eqStr "W" then "W" else "E")),
          ("Google Maps Link",
           "https://www.google.com/maps?q=" ++ floatRepr c.1 ++ ","
             ++ floatRepr c.2)]
  | _, _, _, _ => Except.ok []

/-- Embedding of `_extract_gps_info` (source lines 125–157). -/
def _extract_gps_info (tags : TagDir) : Except PyErr SectionVal := do
  let base ← _gps_base tags
  let withAlt ← match tagsGet tags "GPS GPSAltitude" with
    | some a => do
      let s ← _format_altitude a
      pure (base ++ [("Altitude", s)])
    | none => pure base
  pure (if withAlt.isEmpty then SectionVal.str "N/A" else SectionVal.dict withAlt)

/-- Python `str(tags.get(name, dv))`. -/
def tagStr (tags : TagDir) (name : String) (dv : String) : String :=
  match tagsGet tags name with
  | some t => t.printable
  | none => dv

/-- The `'Camera Information'` section (source lines 29–36). -/
def camera_information (tags : TagDir) : List (String × String) :=
  [("Make", tagStr tags "Image Make" "N/A"),
   ("Model", tagStr tags "Image Model" "N/A"),
   ("Software", tagStr tags "Image Software" "N/A"),
   ("Lens Model", tagStr tags "EXIF LensModel" "N/A"),
   ("Camera Serial Number", tagStr tags "EXIF CameraSerialNumber" "N/A"),
   ("Date of Manufacture", tagStr tags "EXIF DateTimeOriginal" "N/A")]

/-- The `'Date and Time'` section (source lines 38–43). -/
def date_and_time (tags : TagDir) : List (String × String) :=
  [("Taken", tagStr tags "EXIF DateTimeOriginal" "N/A"),
   ("Digitized", tagStr tags "EXIF DateTimeDigitized" "N/A"),
   ("DateTime", tagStr tags "EXIF DateTime" "N/A"),
   ("Time Zone Offset", tagStr tags "EXIF OffsetTimeOriginal" "N/A")]

/-- The `'Camera Settings'` section (source lines 45–68); the entries are
evaluated in source order so that an exception in an earlier field
pre-empts the later ones. -/
def camera_settings (tags : TagDir) : Except PyErr (List (String × String)) := do
  let exposureTime ← _fraction_to_readable (tagsGet tags "EXIF ExposureTime") "N/A"
  let fNumber ← _fraction_to_readable (tagsGet tags "EXIF FNumber") "N/A"
  let focalLength ← _fraction_to_readable (tagsGet tags "EXIF FocalLength") "N/A "
  let exposureMode ← _get_exposure_mode tags
  let whiteBalance ← _get_white_balance tags
  let flash ← _get_flash_info tags
  let metering ← _get_metering_mode tags
  let program ← _get_exposure_program tags
  let brightness ← _fraction_to_readable (tagsGet tags "EXIF BrightnessValue") "N/A"
  let bias ← _fraction_to_readable (tagsGet tags "EXIF ExposureBiasValue") "N/A"
  let maxAperture ← _fraction_to_readable (tagsGet tags "EXIF MaxApertureValue") "N/A"
  let zoom ← _fraction_to_readable (tagsGet tags "EXIF DigitalZoomRatio") "N/A"
  let scene ← _get_scene_capture_type tags
  let shutter ← _fraction_to_readable (tagsGet tags "EXIF ShutterSpeedValue") "N/A"
  let aperture ← _fraction_to_readable (tagsGet tags "EXIF ApertureValue") "N/A"
  let colorSpace ← _get_color_space tags
  let focus ← _get_focus_mode tags
  let shooting ← _get_shooting_mode tags
  let noise ← _get_noise_reduction tags
  pure
    [("Exposure Time", exposureTime),
     ("F-Number", fNumber),
     ("ISO Speed", tagStr tags "EXIF ISOSpeedRatings" "N/A"),
     ("Focal Length", focalLength ++ "mm"),
     ("Focal Length (35mm equivalent)",
      tagStr tags "EXIF FocalLengthIn35mmFilm" "N/A " ++ "mm"),
     ("Exposure Mode", exposureMode),
     ("White Balance", whiteBalance),
     ("Flash", flash),
     ("Metering Mode", metering),
     ("Exposure Program", program),
     ("Brightness Value", brightness),
     ("Exposure Bias", bias),
     ("Max Aperture Value", maxAperture),
     ("Digital Zoom Ratio", zoom),
     ("Scene Capture Type", scene),
     ("Shutter Speed Value", shutter),
     ("Aperture Value", aperture),
     ("Color Space", colorSpace),
     ("Focus Mode", focus),
     ("Shooting Mode", shooting),
     ("Noise Reduction", noise),
     ("Subject Area", _get_subject_area tags)]

/-- Characters of the final path component: scanning left to right, a slash
resets the accumulator. -/
def basenameAux (cur : List Char) : List Char → List Char
  | [] => cur
  | c :: rest =>
    if c = '/' then basenameAux [] rest else basenameAux (cur ++ [c]) rest

/-- Python `os.path.basename` for slash-separated paths. -/
def basename (p : String) : String :=
  String.mk (basenameAux [] p.data)

/-- The `'Other Details'` section (source lines 72–85). -/
def other_details (tags : TagDir) (path : String) :
    Except PyErr (List (String × String)) := do
  let orient ← _get_orientation tags
  let ycbcr ← _get_ycbcr_positioning tags
  let res ← _get_resolution tags
  let subjDist ← _fraction_to_readable (tagsGet tags "EXIF SubjectDistance") "N/A"
  let metering ← _get_metering_mode tags
  pure
    [("Orientation", orient),
     ("YCbCr Positioning", ycbcr),
     ("Resolution", res),
     ("Unique Image ID", tagStr tags "EXIF ImageUniqueID" "N/A"),
     ("Exif Version", tagStr tags "EXIF ExifVersion" "N/A"),
     ("Compression", tagStr tags "EXIF Compression" "N/A"),
     ("Image Width", tagStr tags "EXIF ExifImageWidth" "N/A"),
     ("Image Length", tagStr tags "EXIF ExifImageLength" "N/A"),
     ("Subject Distance", subjDist),
     ("Metering Mode", metering),
     ("File Name", basename path),
     ("File Path", path)]

/-- The container-level facts PIL reports for the file (source lines
16–24), with `dpi` and `duration` optional exactly as `img.info.get`. -/
structure ImgProps where
  format : String
  width : Nat
  height : Nat
  mode : String
  fileSize : Nat
  dpi : Option String
  duration : Option String
deriving DecidableEq, Repr

/-- All facts about the input file the program consumes. -/
structure FileInput where
  path : String
  isFile : Bool
  readable : Bool
  props : ImgProps
  tags : TagDir
deriving DecidableEq, Repr

/-- Fatal outcomes of `extract_clean_image_info`. -/
inductive ExtractErr where
  | fileNotFound
  | unsupportedFormat
  | fieldError (e : PyErr)
deriving DecidableEq, Repr

/-- Lift a per-field runtime exception into the extraction-level error. -/
def liftPy {α : Type} : Except PyErr α → Except ExtractErr α
  | Except.ok a => Except.ok a
  | Except.error e => Except.error (ExtractErr.fieldError e)

/-- The `'Image Properties'` section (source lines 17–24). -/
def image_properties (f : FileInput) : List (String × String) :=
  [("Format", f.props.format),
   ("Size", toString f.props.width ++ " x " ++ toString f.props.height
      ++ " pixels"),
   ("Color Mode", f.props.mode),
   ("File Size", toString f.props.fileSize),
   ("DPI", f.props.dpi.getD "N/A"),
   ("Duration", f.props.duration.getD "N/A")]

/-- The report: named sections in presentation order. -/
abbrev MetadataReport := List (String × SectionVal)

/-- Embedding of `extract_clean_image_info` (source lines 10–87). -/
def extract_clean_image_info (f : FileInput) : Except ExtractErr MetadataReport :=
  if f.isFile = false then Except.error ExtractErr.fileNotFound
  else if f.readable = false then Except.error ExtractErr.unsupportedFormat
  else do
    let cs ← liftPy (camera_settings f.tags)
    let gps ← liftPy (_extract_gps_info f.tags)
    let od ← liftPy (other_details f.tags f.path)
    pure
      [("Image Properties", SectionVal.dict (image_properties f)),
       ("Camera Information", SectionVal.dict (camera_information f.tags)),
       ("Date and Time", SectionVal.dict (date_and_time f.tags)),
       ("Camera Settings", SectionVal.dict cs),
       ("GPS Information", gps),
       ("Other Details", SectionVal.dict od)]

instance {α β : Type} [DecidableEq α] [DecidableEq β] : DecidableEq (Except α β) :=
  fun x y =>
    match x, y with
    | Except.ok a, Except.ok b =>
      if h : a = b then Decidable.isTrue (by rw [h])
      else Decidable.isFalse (by simp [h])
    | Except.error a, Except.error b =>
      if h : a = b then Decidable.isTrue (by rw [h])
      else Decidable.isFalse (by simp [h])
    | Except.ok _, Except.error _ => Decidable.isFalse (by simp)
    | Except.error _, Except.ok _ => Decidable.isFalse (by simp)

/-- Whether a fallible computation succeeded. -/
def exceptOk {α β : Type} : Except α β → Bool
  | Except.ok _ => true
  | Except.error _ => false

/-- Specification predicate for a mapped-enum resolver: an absent tag yields
`"N/A"`; a present tag whose first element is the integer code `c` yields
the table entry for `c` when one exists and the stated fallback otherwise. -/
def ResolverSpec (name : String) (tbl : List (Int × String)) (fallback : String)
    (r : TagDir → Except PyErr String) : Prop :=
  ∀ tags : TagDir,
    (tagsGet tags name = none → r tags = Except.ok "N/A") ∧
    (∀ (t : IfdTag) (c : Int), tagsGet tags name = some t →
      t.values[0]? = some (PyVal.int c) →
      r tags = Except.ok ((lookupTable tbl (PyVal.int c)).getD fallback))

/-- Shape under which `_fraction_to_readable` cannot raise: if the tag is
present, its value list is nonempty and either starts with a fraction or
has a second element. -/
def fracShapeOk (o : Option IfdTag) : Bool :=
  match o with
  | none => true
  | some t =>
    match t.values[0]? with
    | none => false
    | some v => v.isFraction || t.values[1]?.isSome

/-- Shape under which a first-element access cannot raise: if the tag is
present, its value list is nonempty. -/
def firstElemOk (o : Option IfdTag) : Bool :=
  match o with
  | none => true
  | some t => t.values[0]?.isSome

/-- Shape under which `_convert_to_degrees` cannot raise: if the tag is
present, its value list starts with three ratios with nonzero
denominators. -/
def tripletOk (o : Option IfdTag) : Bool :=
  match o with
  | none => true
  | some t =>
    match t.values with
    | PyVal.frac _ b :: PyVal.frac _ d :: PyVal.frac _ f :: _ =>
      b != 0 && d != 0 && f != 0
    | _ => false

/-- Shape under which the altitude formatting cannot raise: if the tag is
present, its first element is a ratio with a nonzero denominator. -/
def altShapeOk (o : Option IfdTag) : Bool :=
  match o with
  | none => true
  | some t =>
    match t.values with
    | PyVal.frac _ d :: _ => d != 0
    | _ => false

/-- Well-formedness of a tag directory: every tag the report assembler
consumes, when present, has the shape the source dereferences without
raising.  Absent tags are always fine. -/
def WellFormedDir (tags : TagDir) : Bool :=
  fracShapeOk (tagsGet tags "EXIF ExposureTime") &&
  fracShapeOk (tagsGet tags "EXIF FNumber") &&
  fracShapeOk (tagsGet tags "EXIF FocalLength") &&
  fracShapeOk (tagsGet tags "EXIF BrightnessValue") &&
  fracShapeOk (tagsGet tags "EXIF ExposureBiasValue") &&
  fracShapeOk (tagsGet tags "EXIF MaxApertureValue") &&
  fracShapeOk (tagsGet tags "EXIF DigitalZoomRatio") &&
  fracShapeOk (tagsGet tags "EXIF ShutterSpeedValue") &&
  fracShapeOk (tagsGet tags "EXIF ApertureValue") &&
  fracShapeOk (tagsGet tags "EXIF SubjectDistance") &&
  fracShapeOk (tagsGet tags "Image XResolution") &&
  fracShapeOk (tagsGet tags "Image YResolution") &&
  firstElemOk (tagsGet tags "EXIF ExposureMode") &&
  firstElemOk (tagsGet tags "EXIF WhiteBalance") &&
  firstElemOk (tagsGet tags "EXIF Flash") &&
  firstElemOk (tagsGet tags "EXIF MeteringMode") &&
  firstElemOk (tagsGet tags "EXIF ExposureProgram") &&
  firstElemOk (tagsGet tags "EXIF SceneCaptureType") &&
  firstElemOk (tagsGet tags "EXIF ColorSpace") &&
  firstElemOk (tagsGet tags "Image ResolutionUnit") &&
  firstElemOk (tagsGet tags "Image YCbCrPositioning") &&
  firstElemOk (tagsGet tags "EXIF FocusMode") &&
  firstElemOk (tagsGet tags "EXIF ShootingMode") &&
  firstElemOk (tagsGet tags "Image Orientation") &&
  firstElemOk (tagsGet tags "EXIF NoiseReduction") &&
  tripletOk (tagsGet tags "GPS GPSLatitude") &&
  firstElemOk (tagsGet tags "GPS GPSLatitudeRef") &&
  tripletOk (tagsGet tags "GPS GPSLongitude") &&
  firstElemOk (tagsGet tags "GPS GPSLongitudeRef") &&
  altShapeOk (tagsGet tags "GPS GPSAltitude")

/-- A latitude triplet tag holding (40, 0, 0) degrees/minutes/seconds. -/
def latTag40 : IfdTag := ⟨[PyVal.frac 40 1, PyVal.frac 0 1, PyVal.frac 0 1], "[40, 0, 0]"⟩

/-- A longitude triplet tag holding (74, 0, 0) degrees/minutes/seconds. -/
def lonTag74 : IfdTag := ⟨[PyVal.frac 74 1, PyVal.frac 0 1, PyVal.frac 0 1], "[74, 0, 0]"⟩

/-- A latitude reference tag holding the string `N`. -/
def latRefN : IfdTag := ⟨[PyVal.strv "N"], "N"⟩

/-- A longitude reference tag holding the string `W`. -/
def lonRefW : IfdTag := ⟨[PyVal.strv "W"], "W"⟩

/-- The concrete GPS directory of the 40° N / 74° W account. -/
def gpsDir40 : TagDir :=
  [("GPS GPSLatitude", latTag40), ("GPS GPSLatitudeRef", latRefN),
   ("GPS GPSLongitude", lonTag74), ("GPS GPSLongitudeRef", lonRefW)]

/-- A directory whose orientation and color-space tags carry the unmapped
code 99. -/
def unmappedDir99 : TagDir :=
  [("Image Orientation", ⟨[PyVal.int 99], "99"⟩),
   ("EXIF ColorSpace", ⟨[PyVal.int 99], "99"⟩)]

/-- A directory holding only a GPS altitude of 100 metres. -/
def altOnlyDir : TagDir := [("GPS GPSAltitude", ⟨[PyVal.frac 100 1], "100"⟩)]

/-- A file whose metadata segment is absent: the tag directory is empty. -/
def emptyTagsFile : FileInput :=
  ⟨"photos/img.jpg", true, true, ⟨"JPEG", 640, 480, "RGB", 12345, none, none⟩, []⟩

/-- The report `emptyTagsFile` yields. -/
def emptyTagsReport : MetadataReport :=
  [("Image Properties", SectionVal.dict
     [("Format", "JPEG"), ("Size", "640 x 480 pixels"), ("Color Mode", "RGB"),
      ("File Size", "12345"), ("DPI", "N/A"), ("Duration", "N/A")]),
   ("Camera Information", SectionVal.dict
     [("Make", "N/A"), ("Model", "N/A"), ("Software", "N/A"),
      ("Lens Model", "N/A"), ("Camera Serial Number", "N/A"),
      ("Date of Manufacture", "N/A")]),
   ("Date and Time", SectionVal.dict
     [("Taken", "N/A"), ("Digitized", "N/A"), ("DateTime", "N/A"),
      ("Time Zone Offset", "N/A")]),
   ("Camera Settings", SectionVal.dict
     [("Exposure Time", "N/A"), ("F-Number", "N/A"), ("ISO Speed", "N/A"),
      ("Focal Length", "N/A mm"), ("Focal Length (35mm equivalent)", "N/A mm"),
      ("Exposure Mode", "N/A"), ("White Balance", "N/A"), ("Flash", "N/A"),
      ("Metering Mode", "N/A"), ("Exposure Program", "N/A"),
      ("Brightness Value", "N/A"), ("Exposure Bias", "N/A"),
      ("Max Aperture Value", "N/A"), ("Digital Zoom Ratio", "N/A"),
      ("Scene Capture Type", "N/A"), ("Shutter Speed Value", "N/A"),
      ("Aperture Value", "N/A"), ("Color Space", "N/A"), ("Focus Mode", "N/A"),
      ("Shooting Mode", "N/A"), ("Noise Reduction", "N/A"),
      ("Subject Area", "N/A")]),
   ("GPS Information", SectionVal.str "N/A"),
   ("Other Details", SectionVal.dict
     [("Orientation", "N/A"), ("YCbCr Positioning", "N/A"),
      ("Resolution", "N/A x N/A N/A"), ("Unique Image ID", "N/A"),
      ("Exif Version", "N/A"), ("Compression", "N/A"), ("Image Width", "N/A"),
      ("Image Length", "N/A"), ("Subject Distance", "N/A"),
      ("Metering Mode", "N/A"), ("File Name", "img.jpg"),
      ("File Path", "photos/img.jpg")])]

/-- A regular file that exists but is not readable. -/
def unreadableFile : FileInput :=
  ⟨"locked.jpg", true, false, ⟨"JPEG", 1, 1, "RGB", 9, none, none⟩, []⟩

/-- A file whose GPS altitude tag carries a zero-denominator ratio. -/
def altZeroFile : FileInput :=
  ⟨"bad.jpg", true, true, ⟨"JPEG", 1, 1, "RGB", 9, none, none⟩,
   [("GPS GPSAltitude", ⟨[PyVal.frac 1 0], "1/0"⟩)]⟩

theorem bindOk {α β γ : Type} (a : α) (k : α → Except β γ) :
    (Except.ok a >>= k : Except β γ) = k a := rfl

theorem bindErr {α β γ : Type} (e : β) (k : α → Except β γ) :
    ((Except.error e : Except β α) >>= k) = Except.error e := rfl

theorem pureOk {α β : Type} (a : α) : (pure a : Except β α) = Except.ok a := rfl

theorem liftPy_ok {α : Type} (a : α) : liftPy (Except.ok a) = Except.ok a := rfl

theorem liftPy_err {α : Type} (e : PyErr) :
    liftPy (Except.error e : Except PyErr α) =
      Except.error (ExtractErr.fieldError e) := rfl

theorem resolveTable_spec (name : String) (tbl : List (Int × String))
    (fallback : String) :
    ResolverSpec name tbl fallback
      (fun tags => resolveTable tbl fallback (tagsGet tags name)) := by
  intro tags
  constructor
  · intro h
    simp only [h, resolveTable]
  · intro t c ht hv
    simp only [ht, resolveTable, getVal, hv, bindOk, pureOk]

theorem gps_base_missing (tags : TagDir)
    (hmiss : tagsGet tags "GPS GPSLatitude" = none ∨
             tagsGet tags "GPS GPSLatitudeRef" = none ∨
             tagsGet tags "GPS GPSLongitude" = none ∨
             tagsGet tags "GPS GPSLongitudeRef" = none) :
    _gps_base tags = Except.ok [] := by
  unfold _gps_base
  cases h1 : tagsGet tags "GPS GPSLatitude" <;>
    cases h2 : tagsGet tags "GPS GPSLatitudeRef" <;>
      cases h3 : tagsGet tags "GPS GPSLongitude" <;>
        cases h4 : tagsGet tags "GPS GPSLongitudeRef" <;>
          simp_all

theorem gps_result_shape (tags : TagDir) (s : SectionVal)
    (h : _extract_gps_info tags = Except.ok s) :
    s = SectionVal.str "N/A" ∨ ∃ l, s = SectionVal.dict l ∧ l ≠ [] := by
  unfold _extract_gps_info at h
  cases hb : _gps_base tags with
  | error e => rw [hb, bindErr] at h; cases h
  | ok base =>
    rw [hb, bindOk] at h
    cases halt : tagsGet tags "GPS GPSAltitude" with
    | none =>
      rw [halt] at h
      simp only [pureOk, bindOk, Except.ok.injEq] at h
      cases base with
      | nil => exact Or.inl h.symm
      | cons x xs => exact Or.inr ⟨x :: xs, h.symm, by simp⟩
    | some a =>
      rw [halt] at h
      simp only [pureOk] at h
      cases hfa : _format_altitude a with
      | error e =>
        rw [hfa] at h
        simp only [bindErr] at h
        cases h
      | ok altStr =>
        rw [hfa] at h
        simp only [bindOk, pureOk, Except.ok.injEq] at h
        have hne : (base ++ [("Altitude", altStr)]).isEmpty = false := by
          cases base <;> simp [List.isEmpty]
        rw [hne] at h
        simp only [Bool.false_eq_true, if_false] at h
        exact Or.inr ⟨base ++ [("Altitude", altStr)], h.symm, by simp⟩

theorem extract_result_cases (f : FileInput) (hf : f.isFile = true)
    (hr : f.readable = true) :
    (∃ e, extract_clean_image_info f = Except.error (ExtractErr.fieldError e)) ∨
    (∃ cs g od, camera_settings f.tags = Except.ok cs ∧
      _extract_gps_info f.tags = Except.ok g ∧
      other_details f.tags f.path = Except.ok od ∧
      extract_clean_image_info f = Except.ok
        [("Image Properties", SectionVal.dict (image_properties f)),
         ("Camera Information", SectionVal.dict (camera_information f.tags)),
         ("Date and Time", SectionVal.dict (date_and_time f.tags)),
         ("Camera Settings", SectionVal.dict cs),
         ("GPS Information", g),
         ("Other Details", SectionVal.dict od)]) := by
  have hstep : extract_clean_image_info f =
      liftPy (camera_settings f.tags) >>= fun cs =>
        liftPy (_extract_gps_info f.tags) >>= fun gps =>
          liftPy (other_details f.tags f.path) >>= fun od =>
            pure
              [("Image Properties", SectionVal.dict (image_properties f)),
               ("Camera Information", SectionVal.dict (camera_information f.tags)),
               ("Date and Time", SectionVal.dict (date_and_time f.tags)),
               ("Camera Settings", SectionVal.dict cs),
               ("GPS Information", gps),
               ("Other Details", SectionVal.dict od)] := by
    simp only [extract_clean_image_info, hf, hr]
    rfl
  cases hcs : camera_settings f.tags with
  | error e =>
    exact Or.inl ⟨e, by rw [hstep, hcs, liftPy_err, bindErr]⟩
  | ok cs =>
    cases hg : _extract_gps_info f.tags with
    | error e =>
      exact Or.inl ⟨e, by rw [hstep, hcs, liftPy_ok, bindOk, hg, liftPy_err, bindErr]⟩
    | ok g =>
      cases hod : other_details f.tags f.path with
      | error e =>
        exact Or.inl ⟨e, by
          rw [hstep, hcs, liftPy_ok, bindOk, hg, liftPy_ok, bindOk, hod,
            liftPy_err, bindErr]⟩
      | ok od =>
        exact Or.inr ⟨cs, g, od, rfl, rfl, rfl, by
          rw [hstep, hcs, liftPy_ok, bindOk, hg, liftPy_ok, bindOk, hod,
            liftPy_ok, bindOk, pureOk]⟩

theorem firstElem_getVal (t : IfdTag) (h : firstElemOk (some t) = true) :
    ∃ v, getVal t 0 = Except.ok v := by
  simp only [firstElemOk] at h
  cases hv : t.values[0]? with
  | none => rw [hv] at h; simp at h
  | some v => exact ⟨v, by simp only [getVal, hv]⟩

theorem fraction_readable_ok (o : Option IfdTag) (h : fracShapeOk o = true)
    (dv : String) : ∃ s, _fraction_to_readable o dv = Except.ok s := by
  cases o with
  | none => exact ⟨dv, rfl⟩
  | some t =>
    simp only [fracShapeOk] at h
    cases hv : t.values[0]? with
    | none => rw [hv] at h; simp at h
    | some v =>
      rw [hv] at h
      cases hf : v.isFraction with
      | true =>
        refine ⟨v.pyStr, ?_⟩
        simp only [_fraction_to_readable, getVal, hv, bindOk, pureOk]
        simp [hf]
      | false =>
        simp only [hf, Bool.false_or, Option.isSome_iff_exists] at h
        obtain ⟨w, hw⟩ := h
        refine ⟨v.pyStr ++ "/" ++ w.pyStr, ?_⟩
        simp only [_fraction_to_readable, getVal, hv, hw, bindOk, pureOk]
        simp [hf]

theorem resolveTable_ok (tbl : List (Int × String)) (fb : String)
    (o : Option IfdTag) (h : firstElemOk o = true) :
    ∃ s, resolveTable tbl fb o = Except.ok s := by
  cases o with
  | none => exact ⟨"N/A", rfl⟩
  | some t =>
    obtain ⟨v, hv⟩ := firstElem_getVal t h
    exact ⟨(lookupTable tbl v).getD fb, by simp only [resolveTable, hv, bindOk,
      pureOk]⟩

theorem flash_info_ok (tags : TagDir)
    (h : firstElemOk (tagsGet tags "EXIF Flash") = true) :
    ∃ s, _get_flash_info tags = Except.ok s := by
  cases ht : tagsGet tags "EXIF Flash" with
  | none => exact ⟨"N/A", by simp only [_get_flash_info, ht]⟩
  | some t =>
    rw [ht] at h
    obtain ⟨v, hv⟩ := firstElem_getVal t h
    refine ⟨if v.eqInt 0 then "Flash did not fire"
            else if v.eqInt 1 then "Flash fired" else "Unknown", ?_⟩
    simp only [_get_flash_info, ht, hv, bindOk, pureOk]

theorem noise_reduction_ok (tags : TagDir)
    (h : firstElemOk (tagsGet tags "EXIF NoiseReduction") = true) :
    ∃ s, _get_noise_reduction tags = Except.ok s := by
  cases ht : tagsGet tags "EXIF NoiseReduction" with
  | none => exact ⟨"N/A", by simp only [_get_noise_reduction, ht]⟩
  | some t =>
    rw [ht] at h
    obtain ⟨v, hv⟩ := firstElem_getVal t h
    refine ⟨if v.eqInt 1 then "On" else "Off", ?_⟩
    simp only [_get_noise_reduction, ht, hv, bindOk, pureOk]

theorem convert_degrees_ok (t : IfdTag) (h : tripletOk (some t) = true) :
    ∃ q, _convert_to_degrees t = Except.ok q := by
  simp only [tripletOk] at h
  cases hvals : t.values with
  | nil => rw [hvals] at h; simp at h
  | cons v0 rest0 =>
    cases rest0 with
    | nil => rw [hvals] at h; cases v0 <;> simp at h
    | cons v1 rest1 =>
      cases rest1 with
      | nil => rw [hvals] at h; cases v0 <;> cases v1 <;> simp at h
      | cons v2 rest2 =>
        rw [hvals] at h
        cases v0 with
        | frac a b =>
          cases v1 with
          | frac c d =>
            cases v2 with
            | frac e f =>
              simp only [Bool.and_eq_true, bne_iff_ne, ne_eq] at h
              obtain ⟨⟨hb, hd⟩, hf⟩ := h
              refine ⟨((floatDiv a b).add ((floatDiv c d).divN 60)).add
                ((floatDiv e f).divN 3600), ?_⟩
              simp [_convert_to_degrees, getVal, hvals, ratioDiv, hb, hd, hf,
                bindOk, pureOk]
            | int _ => simp at h
            | strv _ => simp at h
          | int _ => simp at h
          | strv _ => simp at h
        | int _ => simp at h
        | strv _ => simp at h

theorem format_altitude_ok (a : IfdTag) (h : altShapeOk (some a) = true) :
    ∃ s, _format_altitude a = Except.ok s := by
  simp only [altShapeOk] at h
  cases hvals : a.values with
  | nil => rw [hvals] at h; simp at h
  | cons v0 rest =>
    rw [hvals] at h
    cases v0 with
    | frac n d =>
      simp only [bne_iff_ne, ne_eq] at h
      refine ⟨formatFixed (floatDiv n d) 2 ++ " meters", ?_⟩
      simp [_format_altitude, getVal, hvals, ratioDiv, h, bindOk, pureOk]
    | int _ => simp at h
    | strv _ => simp at h

theorem exists_ok {α β : Type} (e : Except α β) (h : exceptOk e = true) :
    ∃ x, e = Except.ok x := by
  cases e with
  | ok v => exact ⟨v, rfl⟩
  | error e => simp [exceptOk] at h

theorem gps_info_ok (tags : TagDir)
    (h1 : tripletOk (tagsGet tags "GPS GPSLatitude") = true)
    (h2 : firstElemOk (tagsGet tags "GPS GPSLatitudeRef") = true)
    (h3 : tripletOk (tagsGet tags "GPS GPSLongitude") = true)
    (h4 : firstElemOk (tagsGet tags "GPS GPSLongitudeRef") = true)
    (h5 : altShapeOk (tagsGet tags "GPS GPSAltitude") = true) :
    ∃ sec, _extract_gps_info tags = Except.ok sec := by
  have hbase : ∃ l, _gps_base tags = Except.ok l := by
    cases hA : tagsGet tags "GPS GPSLatitude" with
    | none => exact ⟨[], gps_base_missing tags (Or.inl hA)⟩
    | some la =>
      cases hB : tagsGet tags "GPS GPSLatitudeRef" with
      | none => exact ⟨[], gps_base_missing tags (Or.inr (Or.inl hB))⟩
      | some lar =>
        cases hC : tagsGet tags "GPS GPSLongitude" with
        | none => exact ⟨[], gps_base_missing tags (Or.inr (Or.inr (Or.inl hC)))⟩
        | some lo =>
          cases hD : tagsGet tags "GPS GPSLongitudeRef" with
          | none =>
            exact ⟨[], gps_base_missing tags (Or.inr (Or.inr (Or.inr hD)))⟩
          | some lonr =>
            rw [hA] at h1
            rw [hB] at h2
            rw [hC] at h3
            rw [hD] at h4
            obtain ⟨q1, hq1⟩ := convert_degrees_ok la h1
            obtain ⟨q2, hq2⟩ := convert_degrees_ok lo h3
            obtain ⟨lv, hlv⟩ := firstElem_getVal lar h2
            obtain ⟨gv, hgv⟩ := firstElem_getVal lonr h4
            refine exists_ok _ ?_
            simp only [_gps_base, hA, hB, hC, hD, _gps_signed, hq1, hq2, hlv,
              hgv, bindOk, pureOk, exceptOk]
  obtain ⟨base, hbl⟩ := hbase
  cases hE : tagsGet tags "GPS GPSAltitude" with
  | none =>
    refine exists_ok _ ?_
    simp only [_extract_gps_info, hbl, hE, bindOk, pureOk, exceptOk]
  | some a =>
    rw [hE] at h5
    obtain ⟨s, hs⟩ := format_altitude_ok a h5
    refine exists_ok _ ?_
    simp only [_extract_gps_info, hbl, hE, hs, bindOk, pureOk, exceptOk]

theorem camera_settings_ok (tags : TagDir) (h : WellFormedDir tags = true) :
    ∃ l, camera_settings tags = Except.ok l := by
  simp only [WellFormedDir, Bool.and_eq_true] at h
  obtain ⟨⟨⟨⟨⟨⟨⟨⟨⟨⟨⟨⟨⟨⟨⟨⟨⟨⟨⟨⟨⟨⟨⟨⟨⟨⟨⟨⟨⟨w1, w2⟩, w3⟩, w4⟩, w5⟩, w6⟩, w7⟩, w8⟩,
    w9⟩, w10⟩, w11⟩, w12⟩, w13⟩, w14⟩, w15⟩, w16⟩, w17⟩, w18⟩, w19⟩, w20⟩,
    w21⟩, w22⟩, w23⟩, w24⟩, w25⟩, w26⟩, w27⟩, w28⟩, w29⟩, w30⟩ := h
  obtain ⟨s1, e1⟩ := fraction_readable_ok _ w1 "N/A"
  obtain ⟨s2, e2⟩ := fraction_readable_ok _ w2 "N/A"
  obtain ⟨s3, e3⟩ := fraction_readable_ok _ w3 "N/A "
  obtain ⟨s4, e4⟩ : ∃ s, _get_exposure_mode tags = Except.ok s :=
    resolveTable_ok _ _ _ w13
  obtain ⟨s5, e5⟩ : ∃ s, _get_white_balance tags = Except.ok s :=
    resolveTable_ok _ _ _ w14
  obtain ⟨s6, e6⟩ := flash_info_ok tags w15
  obtain ⟨s7, e7⟩ : ∃ s, _get_metering_mode tags = Except.ok s :=
    resolveTable_ok _ _ _ w16
  obtain ⟨s8, e8⟩ : ∃ s, _get_exposure_program tags = Except.ok s :=
    resolveTable_ok _ _ _ w17
  obtain ⟨s9, e9⟩ := fraction_readable_ok _ w4 "N/A"
  obtain ⟨s10, e10⟩ := fraction_readable_ok _ w5 "N/A"
  obtain ⟨s11, e11⟩ := fraction_readable_ok _ w6 "N/A"
  obtain ⟨s12, e12⟩ := fraction_readable_ok _ w7 "N/A"
  obtain ⟨s13, e13⟩ : ∃ s, _get_scene_capture_type tags = Except.ok s :=
    resolveTable_ok _ _ _ w18
  obtain ⟨s14, e14⟩ := fraction_readable_ok _ w8 "N/A"
  obtain ⟨s15, e15⟩ := fraction_readable_ok _ w9 "N/A"
  obtain ⟨s16, e16⟩ : ∃ s, _get_color_space tags = Except.ok s :=
    resolveTable_ok _ _ _ w19
  obtain ⟨s17, e17⟩ : ∃ s, _get_focus_mode tags = Except.ok s :=
    resolveTable_ok _ _ _ w22
  obtain ⟨s18, e18⟩ : ∃ s, _get_shooting_mode tags = Except.ok s :=
    resolveTable_ok _ _ _ w23
  obtain ⟨s19, e19⟩ := noise_reduction_ok tags w25
  refine exists_ok _ ?_
  simp only [camera_settings, e1, e2, e3, e4, e5, e6, e7, e8, e9, e10, e11,
    e12, e13, e14, e15, e16, e17, e18, e19, bindOk, pureOk, exceptOk]

theorem other_details_ok (tags : TagDir) (path : String)
    (h : WellFormedDir tags = true) :
    ∃ l, other_details tags path = Except.ok l := by
  simp only [WellFormedDir, Bool.and_eq_true] at h
  obtain ⟨⟨⟨⟨⟨⟨⟨⟨⟨⟨⟨⟨⟨⟨⟨⟨⟨⟨⟨⟨⟨⟨⟨⟨⟨⟨⟨⟨⟨w1, w2⟩, w3⟩, w4⟩, w5⟩, w6⟩, w7⟩, w8⟩,
    w9⟩, w10⟩, w11⟩, w12⟩, w13⟩, w14⟩, w15⟩, w16⟩, w17⟩, w18⟩, w19⟩, w20⟩,
    w21⟩, w22⟩, w23⟩, w24⟩, w25⟩, w26⟩, w27⟩, w28⟩, w29⟩, w30⟩ := h
  obtain ⟨s1, e1⟩ : ∃ s, _get_orientation tags = Except.ok s :=
    resolveTable_ok _ _ _ w24
  obtain ⟨s2, e2⟩ : ∃ s, _get_ycbcr_positioning tags = Except.ok s :=
    resolveTable_ok _ _ _ w21
  obtain ⟨sx, ex⟩ := fraction_readable_ok _ w11 "N/A"
  obtain ⟨sy, ey⟩ := fraction_readable_ok _ w12 "N/A"
  obtain ⟨su, eu⟩ : ∃ s, _get_resolution_unit tags = Except.ok s :=
    resolveTable_ok _ _ _ w20
  obtain ⟨s3, e3⟩ : ∃ s, _get_resolution tags = Except.ok s :=
    exists_ok _ (by simp only [_get_resolution, ex, ey, eu, bindOk, pureOk,
      exceptOk])
  obtain ⟨s4, e4⟩ := fraction_readable_ok _ w10 "N/A"
  obtain ⟨s5, e5⟩ : ∃ s, _get_metering_mode tags = Except.ok s :=
    resolveTable_ok _ _ _ w16
  refine exists_ok _ ?_
  simp only [other_details, e1, e2, e3, e4, e5, bindOk, pureOk, exceptOk]

/-- C1 (amended): every mapped-enum resolver returns `"N/A"` when its tag is
absent and the exact table label for a table-defined first-element code; for
a present-but-unmapped code, ten of the twelve resolvers return `"Unknown"`,
but the orientation and color-space resolvers return `"N/A"` instead. -/
theorem mapped_enum_resolvers :
    ResolverSpec "EXIF ExposureMode"
      [(0, "Auto"), (1, "Manual"), (2, "Auto bracket")] "Unknown"
      _get_exposure_mode ∧
    ResolverSpec "EXIF WhiteBalance" [(0, "Auto"), (1, "Manual")] "Unknown"
      _get_white_balance ∧
    ResolverSpec "EXIF Flash"
      [(0, "Flash did not fire"), (1, "Flash fired")] "Unknown"
      _get_flash_info ∧
    ResolverSpec "EXIF MeteringMode"
      [(0, "Unknown"), (1, "Average"), (2, "Center-weighted average"),
       (3, "Spot"), (4, "Multi-spot"), (5, "Pattern"), (6, "Partial")]
      "Unknown" _get_metering_mode ∧
    ResolverSpec "EXIF ExposureProgram"
      [(0, "Not defined"), (1, "Manual"), (2, "Normal program"),
       (3, "Aperture priority"), (4, "Shutter priority"),
       (5, "Creative program"), (6, "Action program"), (7, "Portrait mode"),
       (8, "Landscape mode")] "Unknown" _get_exposure_program ∧
    ResolverSpec "EXIF SceneCaptureType"
      [(0, "Standard"), (1, "Landscape"), (2, "Portrait"), (3, "Night scene")]
      "Unknown" _get_scene_capture_type ∧
    ResolverSpec "EXIF ColorSpace" [(1, "sRGB"), (2, "Adobe RGB")] "N/A"
      _get_color_space ∧
    ResolverSpec "Image ResolutionUnit"
      [(1, "No absolute unit of measurement"), (2, "Inches"),
       (3, "Centimeters")] "Unknown" _get_resolution_unit ∧
    ResolverSpec "Image YCbCrPositioning" [(1, "Centered"), (2, "Co-sited")]
      "Unknown" _get_ycbcr_positioning ∧
    ResolverSpec "EXIF FocusMode" [(0, "Manual"), (1, "Auto")] "Unknown"
      _get_focus_mode ∧
    ResolverSpec "EXIF ShootingMode"
      [(0, "Normal"), (1, "Portrait"), (2, "Landscape")] "Unknown"
      _get_shooting_mode ∧
    ResolverSpec "Image Orientation"
      [(1, "Normal"), (2, "Mirrored horizontally"), (3, "Rotated 180 degrees"),
       (4, "Mirrored vertically"),
       (5, "Mirrored horizontally and rotated 270 degrees CW"),
       (6, "Rotated 90 degrees CW"),
       (7, "Mirrored horizontally and rotated 90 degrees CW"),
       (8, "Rotated 270 degrees CW")] "N/A" _get_orientation := by
  refine ⟨resolveTable_spec _ _ _, resolveTable_spec _ _ _, ?_,
    resolveTable_spec _ _ _, resolveTable_spec _ _ _, resolveTable_spec _ _ _,
    resolveTable_spec _ _ _, resolveTable_spec _ _ _, resolveTable_spec _ _ _,
    resolveTable_spec _ _ _, resolveTable_spec _ _ _, resolveTable_spec _ _ _⟩
  intro tags
  constructor
  · intro h
    simp only [_get_flash_info, h]
  · intro t c ht hv
    simp only [_get_flash_info, ht, getVal, hv, bindOk, pureOk]
    by_cases h0 : c = 0
    · subst h0
      decide
    · by_cases h1 : c = 1
      · subst h1
        decide
      · have hc0 : (c == (0 : Int)) = false := by simp [h0]
        have hc1 : (c == (1 : Int)) = false := by simp [h1]
        simp [lookupTable, PyVal.eqInt, List.find?, hc0, hc1]

/-- Witness for C1: a directory whose Exposure Mode tag carries code 0
resolves to the listed label `Auto`. -/
theorem mapped_enum_resolvers_witness :
    _get_exposure_mode [("EXIF ExposureMode", ⟨[PyVal.int 0], "Auto"⟩)] =
      Except.ok "Auto" := by
  have h := (mapped_enum_resolvers.1
    [("EXIF ExposureMode", ⟨[PyVal.int 0], "Auto"⟩)]).2
    ⟨[PyVal.int 0], "Auto"⟩ 0 rfl rfl
  exact h.trans rfl

/-- Counterexample for C1 as stated: with the unmapped code 99 present, the
orientation and color-space resolvers return `"N/A"`, not `"Unknown"`. -/
theorem mapped_enum_resolvers_counterexample :
    _get_orientation unmappedDir99 = Except.ok "N/A" ∧
    _get_orientation unmappedDir99 ≠ Except.ok "Unknown" ∧
    _get_color_space unmappedDir99 = Except.ok "N/A" ∧
    _get_color_space unmappedDir99 ≠ Except.ok "Unknown" := by
  refine ⟨rfl, ?_, rfl, ?_⟩ <;> decide

/-- C7: the Noise Reduction resolver returns `"N/A"` when its tag is absent,
`"On"` when present with first-element code 1, `"Off"` for any other present
integer code, and never returns `"Unknown"`. -/
theorem noise_reduction_spec (tags : TagDir) :
    (tagsGet tags "EXIF NoiseReduction" = none →
      _get_noise_reduction tags = Except.ok "N/A") ∧
    (∀ (t : IfdTag) (c : Int), tagsGet tags "EXIF NoiseReduction" = some t →
      t.values[0]? = some (PyVal.int c) →
      _get_noise_reduction tags = Except.ok (if c = 1 then "On" else "Off")) ∧
    _get_noise_reduction tags ≠ Except.ok "Unknown" := by
  refine ⟨?_, ?_, ?_⟩
  · intro h
    simp only [_get_noise_reduction, h]
  · intro t c ht hv
    simp only [_get_noise_reduction, ht, getVal, hv, bindOk, pureOk]
    by_cases h1 : c = 1
    · subst h1
      decide
    · have hc : (c == (1 : Int)) = false := by simp [h1]
      simp [PyVal.eqInt, hc, h1]
  · cases ht : tagsGet tags "EXIF NoiseReduction" with
    | none =>
      simp only [_get_noise_reduction, ht]
      decide
    | some t =>
      cases hv : t.values[0]? with
      | none =>
        simp only [_get_noise_reduction, ht, getVal, hv, bindErr]
        decide
      | some v =>
        simp only [_get_noise_reduction, ht, getVal, hv, bindOk, pureOk]
        cases he : v.eqInt 1 <;> decide

/-- Witness for C7: a directory whose Noise Reduction tag carries code 1
resolves to `On`. -/
theorem noise_reduction_witness :
    _get_noise_reduction [("EXIF NoiseReduction", ⟨[PyVal.int 1], "1"⟩)] =
      Except.ok "On" := by
  have h := (noise_reduction_spec
    [("EXIF NoiseReduction", ⟨[PyVal.int 1], "1"⟩)]).2.1
    ⟨[PyVal.int 1], "1"⟩ 1 rfl rfl
  exact h.trans rfl

/-- C4 (amended): the Rational formatter returns the caller's default when
the value is absent, and never raises on a zero-denominator first element —
but in that case it returns the rendered `n/0` text, not the default. -/
theorem fraction_formatter_spec :
    (∀ dv : String, _fraction_to_readable none dv = Except.ok dv) ∧
    (∀ (t : IfdTag) (n : Int) (dv : String),
      t.values[0]? = some (PyVal.frac n 0) →
      _fraction_to_readable (some t) dv =
        Except.ok (toString n ++ "/" ++ "0")) := by
  constructor
  · intro dv
    rfl
  · intro t n dv hv
    simp only [_fraction_to_readable, getVal, hv, bindOk, pureOk]
    simp only [PyVal.isFraction, PyVal.pyStr]
    rfl

/-- Witness for C4: a present tag with the zero-denominator ratio 5/0 and
default `X` formats as `5/0` without raising. -/
theorem fraction_formatter_witness :
    _fraction_to_readable (some ⟨[PyVal.frac 5 0], "5/0"⟩) "X" =
      Except.ok (toString (5 : Int) ++ "/" ++ "0") :=
  fraction_formatter_spec.2 ⟨[PyVal.frac 5 0], "5/0"⟩ 5 "X" rfl

/-- Counterexample for C4 as stated: a zero-denominator value does not
behave as absent — the default is not returned. -/
theorem fraction_formatter_counterexample :
    _fraction_to_readable (some ⟨[PyVal.frac 1 0], "1/0"⟩) "N/A" =
      Except.ok "1/0" ∧
    _fraction_to_readable (some ⟨[PyVal.frac 1 0], "1/0"⟩) "N/A" ≠
      Except.ok "N/A" := by
  refine ⟨rfl, ?_⟩
  decide

/-- C2 (amended): when any of the four required GPS fields is missing, no
latitude/longitude/map-link field is produced; the GPS section is the
sentinel `"N/A"` only when the Altitude tag is also absent — when an
Altitude tag is present, the section is a mapping holding just the Altitude
field (or the altitude computation's own exception). -/
theorem gps_missing_field_spec (tags : TagDir)
    (hmiss : tagsGet tags "GPS GPSLatitude" = none ∨
             tagsGet tags "GPS GPSLatitudeRef" = none ∨
             tagsGet tags "GPS GPSLongitude" = none ∨
             tagsGet tags "GPS GPSLongitudeRef" = none) :
    (tagsGet tags "GPS GPSAltitude" = none →
      _extract_gps_info tags = Except.ok (SectionVal.str "N/A")) ∧
    (∀ a : IfdTag, tagsGet tags "GPS GPSAltitude" = some a →
      _extract_gps_info tags =
        (_format_altitude a).map
          (fun s => SectionVal.dict [("Altitude", s)])) := by
  have hbase := gps_base_missing tags hmiss
  constructor
  · intro halt
    simp only [_extract_gps_info, hbase, bindOk, halt, pureOk]
    rfl
  · intro a halt
    simp only [_extract_gps_info, hbase, bindOk, halt]
    cases hfa : _format_altitude a with
    | error e =>
      simp only [hfa, bindErr, Except.map]
    | ok s =>
      simp only [hfa, bindOk, pureOk, Except.map]
      rfl

/-- Witness for C2: with an empty directory the GPS section is `"N/A"`. -/
theorem gps_missing_field_witness :
    _extract_gps_info [] = Except.ok (SectionVal.str "N/A") :=
  (gps_missing_field_spec [] (Or.inl rfl)).1 rfl

/-- Counterexample for C2 as stated: latitude and longitude are missing but
an Altitude tag is present, and the GPS section is an Altitude-only mapping
rather than `"N/A"`. -/
theorem gps_missing_field_counterexample :
    _extract_gps_info altOnlyDir =
      Except.ok (SectionVal.dict [("Altitude", "100.00 meters")]) ∧
    _extract_gps_info altOnlyDir ≠ Except.ok (SectionVal.str "N/A") := by
  refine ⟨rfl, ?_⟩
  decide

theorem floatDiv_den_ne (a b : Int) (hb : b ≠ 0) : (floatDiv a b).den ≠ 0 := by
  unfold floatDiv
  split
  · simpa using hb
  · simpa using hb

theorem toRat_floatDiv (a b : Int) : (floatDiv a b).toRat = (a : ℚ) / (b : ℚ) := by
  unfold floatDiv PyFloat.toRat
  split
  · push_cast
    rw [neg_div_neg_eq]
  · rfl

theorem add_den_ne (x y : PyFloat) (hx : x.den ≠ 0) (hy : y.den ≠ 0) :
    (x.add y).den ≠ 0 := by
  unfold PyFloat.add
  simpa using mul_ne_zero hx hy

theorem divN_den_ne (x : PyFloat) (n : Nat) (hx : x.den ≠ 0) (hn : n ≠ 0) :
    (x.divN n).den ≠ 0 := by
  unfold PyFloat.divN
  have hn2 : (n : Int) ≠ 0 := by exact_mod_cast hn
  simpa using mul_ne_zero hx hn2

theorem toRat_add (x y : PyFloat) (hx : x.den ≠ 0) (hy : y.den ≠ 0) :
    (x.add y).toRat = x.toRat + y.toRat := by
  unfold PyFloat.add PyFloat.toRat
  have hx2 : (x.den : ℚ) ≠ 0 := Int.cast_ne_zero.mpr hx
  have hy2 : (y.den : ℚ) ≠ 0 := Int.cast_ne_zero.mpr hy
  push_cast
  field_simp

theorem toRat_divN (x : PyFloat) (n : Nat) (hx : x.den ≠ 0) (hn : n ≠ 0) :
    (x.divN n).toRat = x.toRat / (n : ℚ) := by
  unfold PyFloat.divN PyFloat.toRat
  have hx2 : (x.den : ℚ) ≠ 0 := Int.cast_ne_zero.mpr hx
  have hn2 : ((n : Int) : ℚ) ≠ 0 := by
    exact_mod_cast Nat.cast_ne_zero.mpr hn
  push_cast
  rw [div_div]

/-- C3 (amended): for the latitude triplet (40,0,0) with reference `N` and
longitude triplet (74,0,0) with reference `W`, the GPS converter produces
Latitude `40.00000° N` and Longitude `-74.00000° W` — the signed decimal
-74.00000 is rendered with its sign in the string — and a map link
containing `40.0` and `-74.0`; in general each triplet combines as
degrees + minutes/60 + seconds/3600, and the reference `S` negates the
latitude, `W` negates the longitude, while any other reference value
leaves the sign unchanged. -/
theorem gps_conversion_spec :
    _extract_gps_info gpsDir40 = Except.ok (SectionVal.dict
      [("Latitude", "40.00000° N"), ("Longitude", "-74.00000° W"),
       ("Google Maps Link", "https://www.google.com/maps?q=40.0,-74.0")]) ∧
    ((∃ u v : String,
        "https://www.google.com/maps?q=40.0,-74.0" = u ++ "40.0" ++ v) ∧
     (∃ u v : String,
        "https://www.google.com/maps?q=40.0,-74.0" = u ++ "-74.0" ++ v)) ∧
    (∀ (t : IfdTag) (a b c d e f : Int), b ≠ 0 → d ≠ 0 → f ≠ 0 →
      t.values[0]? = some (PyVal.frac a b) →
      t.values[1]? = some (PyVal.frac c d) →
      t.values[2]? = some (PyVal.frac e f) →
      ∃ q : PyFloat, _convert_to_degrees t = Except.ok q ∧
        q.toRat = (a : ℚ) / b + ((c : ℚ) / d) / 60 + ((e : ℚ) / f) / 3600) ∧
    (∀ (la lar lo lonr : IfdTag) (lv gv : PyVal) (latq lonq : PyFloat),
      lar.values[0]? = some lv → lonr.values[0]? = some gv →
      _convert_to_degrees la = Except.ok latq →
      _convert_to_degrees lo = Except.ok lonq →
      _gps_signed la lar lo lonr = Except.ok
        ((if lv.eqStr "S" then latq.neg else latq),
         (if gv.eqStr "W" then lonq.neg else lonq))) := by
  refine ⟨rfl, ⟨⟨"https://www.google.com/maps?q=", ",-74.0", rfl⟩,
    ⟨"https://www.google.com/maps?q=40.0,", "", rfl⟩⟩, ?_, ?_⟩
  · intro t a b c d e f hb hd hf h0 h1 h2
    refine ⟨((floatDiv a b).add ((floatDiv c d).divN 60)).add
      ((floatDiv e f).divN 3600), ?_, ?_⟩
    · simp only [_convert_to_degrees, getVal, h0, h1, h2, ratioDiv, hb, hd,
        hf, if_neg, bindOk, pureOk]
      simp only [hb, hd, hf, if_false]
      rfl
    · have d1 := floatDiv_den_ne a b hb
      have d2 := floatDiv_den_ne c d hd
      have d3 := floatDiv_den_ne e f hf
      have d4 := divN_den_ne (floatDiv c d) 60 d2 (by norm_num)
      have d5 := divN_den_ne (floatDiv e f) 3600 d3 (by norm_num)
      rw [toRat_add _ _ (add_den_ne _ _ d1 d4) d5, toRat_add _ _ d1 d4,
        toRat_divN _ _ d2 (by norm_num), toRat_divN _ _ d3 (by norm_num),
        toRat_floatDiv, toRat_floatDiv, toRat_floatDiv]
      norm_num
  · intro la lar lo lonr lv gv latq lonq hlv hgv hcla hclo
    simp only [_gps_signed, hcla, hclo, getVal, hlv, hgv, bindOk, pureOk]

/-- Witness for C3: the signed-coordinate computation at the concrete 40° N /
74° W directory: the `W` reference negates the longitude, the `N` reference
leaves the latitude unchanged. -/
theorem gps_conversion_witness :
    _gps_signed latTag40 latRefN lonTag74 lonRefW =
      Except.ok (⟨8640000, 216000⟩, PyFloat.neg ⟨15984000, 216000⟩) := by
  have h := gps_conversion_spec.2.2.2 latTag40 latRefN lonTag74 lonRefW
    (PyVal.strv "N") (PyVal.strv "W") ⟨8640000, 216000⟩ ⟨15984000, 216000⟩
    rfl rfl rfl rfl
  exact h.trans rfl

/-- Counterexample for C3 as stated: the longitude display string is
`-74.00000° W`, not `74.00000° W`. -/
theorem gps_conversion_counterexample :
    _extract_gps_info gpsDir40 = Except.ok (SectionVal.dict
      [("Latitude", "40.00000° N"), ("Longitude", "-74.00000° W"),
       ("Google Maps Link", "https://www.google.com/maps?q=40.0,-74.0")]) ∧
    ("-74.00000° W" : String) ≠ "74.00000° W" := by
  refine ⟨rfl, ?_⟩
  decide

/-- C5 (amended): for every tag directory whose present tags are well-formed
in the sense of `WellFormedDir`, no per-field computation raises — the whole
extraction succeeds, with per-field resolution failures (absent tags,
unmapped codes) degrading to the sentinel strings; for ill-formed present
values (for example a zero-denominator GPS rational) an exception does
propagate from field population. -/
theorem field_population_safe (f : FileInput) (hf : f.isFile = true)
    (hr : f.readable = true) (hw : WellFormedDir f.tags = true) :
    ∃ r, extract_clean_image_info f = Except.ok r := by
  obtain ⟨cs, hcs⟩ := camera_settings_ok f.tags hw
  obtain ⟨od, hod⟩ := other_details_ok f.tags f.path hw
  have hg : ∃ sec, _extract_gps_info f.tags = Except.ok sec := by
    simp only [WellFormedDir, Bool.and_eq_true] at hw
    exact gps_info_ok f.tags hw.1.1.1.1.2 hw.1.1.1.2 hw.1.1.2 hw.1.2 hw.2
  obtain ⟨g, hgl⟩ := hg
  refine exists_ok _ ?_
  simp only [extract_clean_image_info, hf, hr, hcs, hgl, hod, liftPy_ok,
    bindOk, pureOk, exceptOk]
  rfl

/-- Witness for C5: extraction succeeds on a concrete well-formed file. -/
theorem field_population_safe_witness :
    exceptOk (extract_clean_image_info emptyTagsFile) = true := by
  obtain ⟨r, hr⟩ := field_population_safe emptyTagsFile rfl rfl rfl
  rw [hr]
  rfl

/-- Counterexample for C5 as stated: a zero-denominator GPS altitude rational
does not degrade to a sentinel — the division raises and the exception
propagates out of field population. -/
theorem field_population_counterexample :
    extract_clean_image_info altZeroFile =
      Except.error (ExtractErr.fieldError PyErr.zeroDivision) := rfl

/-- C6 (amended): on a file with no embedded metadata segment (empty tag
directory), every EXIF/GPS-derived field resolves to the `"N/A"` sentinel —
except that the two focal-length fields render as `"N/A mm"` and the
Resolution field as `"N/A x N/A N/A"` (the sentinel embedded in the fields'
fixed suffixes and separators) — while the Image Properties section is
still populated from the container decoder. -/
theorem empty_tags_report (props : ImgProps) (path : String) :
    extract_clean_image_info ⟨path, true, true, props, []⟩ = Except.ok
      [("Image Properties", SectionVal.dict
         [("Format", props.format),
          ("Size", toString props.width ++ " x " ++ toString props.height
            ++ " pixels"),
          ("Color Mode", props.mode),
          ("File Size", toString props.fileSize),
          ("DPI", props.dpi.getD "N/A"),
          ("Duration", props.duration.getD "N/A")]),
       ("Camera Information", SectionVal.dict
         [("Make", "N/A"), ("Model", "N/A"), ("Software", "N/A"),
          ("Lens Model", "N/A"), ("Camera Serial Number", "N/A"),
          ("Date of Manufacture", "N/A")]),
       ("Date and Time", SectionVal.dict
         [("Taken", "N/A"), ("Digitized", "N/A"), ("DateTime", "N/A"),
          ("Time Zone Offset", "N/A")]),
       ("Camera Settings", SectionVal.dict
         [("Exposure Time", "N/A"), ("F-Number", "N/A"), ("ISO Speed", "N/A"),
          ("Focal Length", "N/A mm"),
          ("Focal Length (35mm equivalent)", "N/A mm"),
          ("Exposure Mode", "N/A"), ("White Balance", "N/A"), ("Flash", "N/A"),
          ("Metering Mode", "N/A"), ("Exposure Program", "N/A"),
          ("Brightness Value", "N/A"), ("Exposure Bias", "N/A"),
          ("Max Aperture Value", "N/A"), ("Digital Zoom Ratio", "N/A"),
          ("Scene Capture Type", "N/A"), ("Shutter Speed Value", "N/A"),
          ("Aperture Value", "N/A"), ("Color Space", "N/A"),
          ("Focus Mode", "N/A"), ("Shooting Mode", "N/A"),
          ("Noise Reduction", "N/A"), ("Subject Area", "N/A")]),
       ("GPS Information", SectionVal.str "N/A"),
       ("Other Details", SectionVal.dict
         [("Orientation", "N/A"), ("YCbCr Positioning", "N/A"),
          ("Resolution", "N/A x N/A N/A"), ("Unique Image ID", "N/A"),
          ("Exif Version", "N/A"), ("Compression", "N/A"),
          ("Image Width", "N/A"), ("Image Length", "N/A"),
          ("Subject Distance", "N/A"), ("Metering Mode", "N/A"),
          ("File Name", basename path), ("File Path", path)])] := rfl

/-- Counterexample for C6 as stated: with an empty tag directory the
Resolution field of the report is `"N/A x N/A N/A"`, not `"N/A"`. -/
theorem empty_tags_report_counterexample :
    (other_details [] "img.jpg").map
      (fun l => l.find? (fun p => p.1 == "Resolution")) =
      Except.ok (some ("Resolution", "N/A x N/A N/A")) ∧
    ("N/A x N/A N/A" : String) ≠ "N/A" := by
  refine ⟨rfl, ?_⟩
  decide

/-- C8 (amended): extraction fails with the file-not-found error exactly
when the path does not reference a regular file — readability is not part
of that check: a regular but unreadable file fails later, in the container
decode, with a different error.  When the check fails, the error is raised
immediately and no report is produced. -/
theorem notfound_iff_no_regular_file (f : FileInput) :
    extract_clean_image_info f = Except.error ExtractErr.fileNotFound ↔
      f.isFile = false := by
  constructor
  · intro h
    cases hf : f.isFile with
    | false => rfl
    | true =>
      cases hr : f.readable with
      | false =>
        simp [extract_clean_image_info, hf, hr] at h
      | true =>
        rcases extract_result_cases f hf hr with ⟨e, he⟩ |
          ⟨cs, g, od, hcs, hg, hod, hok⟩
        · rw [he] at h
          simp at h
        · rw [hok] at h
          simp at h
  · intro h
    simp [extract_clean_image_info, h]

/-- Counterexample for C8 as stated: a regular file that is not readable
does not produce the file-not-found error — the container decode fails
with its own error instead. -/
theorem notfound_counterexample :
    extract_clean_image_info unreadableFile =
      Except.error ExtractErr.unsupportedFormat ∧
    extract_clean_image_info unreadableFile ≠
      Except.error ExtractErr.fileNotFound ∧
    unreadableFile.isFile = true ∧ unreadableFile.readable = false := by
  refine ⟨rfl, ?_, rfl, rfl⟩
  decide

/-- C9: extraction is a pure, deterministic one-shot computation over the
file's facts: calling it twice on a file whose contents are unchanged
yields structurally identical reports. -/
theorem extract_deterministic (f g : FileInput) (h : f = g) :
    extract_clean_image_info f = extract_clean_image_info g := by
  rw [h]

/-- Witness for C9 at a concrete file. -/
theorem extract_deterministic_witness :
    extract_clean_image_info emptyTagsFile =
      extract_clean_image_info emptyTagsFile :=
  extract_deterministic emptyTagsFile emptyTagsFile rfl

/-- C10: every successfully returned report consists of exactly the six
sections, in fixed order: Image Properties, Camera Information, Date and
Time, Camera Settings, GPS Information, Other Details; the first four and
the last are field mappings, and the GPS section is either a nonempty
mapping or the bare string `"N/A"` — never an empty mapping. -/
theorem report_shape (f : FileInput) (r : MetadataReport)
    (h : extract_clean_image_info f = Except.ok r) :
    ∃ ip ci dt cs od gsec,
      r = [("Image Properties", SectionVal.dict ip),
           ("Camera Information", SectionVal.dict ci),
           ("Date and Time", SectionVal.dict dt),
           ("Camera Settings", SectionVal.dict cs),
           ("GPS Information", gsec),
           ("Other Details", SectionVal.dict od)] ∧
      (gsec = SectionVal.str "N/A" ∨
        ∃ l, gsec = SectionVal.dict l ∧ l ≠ []) := by
  cases hf : f.isFile with
  | false =>
    simp [extract_clean_image_info, hf] at h
  | true =>
    cases hr : f.readable with
    | false =>
      simp [extract_clean_image_info, hf, hr] at h
    | true =>
      rcases extract_result_cases f hf hr with ⟨e, he⟩ |
        ⟨cs, g, od, hcs, hg, hod, hok⟩
      · rw [he] at h
        simp at h
      · rw [hok] at h
        refine ⟨image_properties f, camera_information f.tags,
          date_and_time f.tags, cs, od, g, (Except.ok.inj h).symm, ?_⟩
        exact gps_result_shape f.tags g hg

/-- Witness for C10: the six section names in order at a concrete file. -/
theorem report_shape_witness :
    emptyTagsReport.map Prod.fst =
      ["Image Properties", "Camera Information", "Date and Time",
       "Camera Settings", "GPS Information", "Other Details"] := by
  obtain ⟨ip, ci, dt, cs, od, gsec, hrep, hg⟩ :=
    report_shape emptyTagsFile emptyTagsReport (by rfl)
  rw [hrep]
  rfl
